import Mathlib

/-!
Verification development for `wenzhou_bus_batch_colored.py`, a one-shot batch
utility that fetches bus-route data from a mapping provider, converts each
coordinate from the provider's obfuscated frame (GCJ-02) to the standard frame
(WGS-84), and writes per-route geometry files.

The Python source is shallowly embedded below:
  * Python strings are Lean `String`s; the handful of string primitives the
    script uses (`str.strip`, `str.split`, `str.replace` with one-character
    arguments, `int(...)`, `float(...)`) are modelled over `String.data`
    (`List Char`) so that they evaluate by kernel reduction.
  * Python floats are modelled as exact numbers: parsed literals become `ℚ`,
    and the transcendental coordinate transform works over `ℝ`.
  * A raised (uncaught) Python exception is `Except.error`; the HTTP layer is
    an explicit environment `Env` mapping requests to decoded JSON responses;
    the filesystem is an association list from file names to file contents;
    `print` calls become a log of `LogEntry` values.
  * `int(...)` is modelled for optionally signed ASCII-digit strings and
    `float(...)` for optionally signed decimal strings, the only forms the
    provider data and the claims exercise (underscore separators, exponent
    notation, infinities are not modelled).
-/

namespace WenzhouBus

/-! ### Python string primitives -/

/-- Characters that Python's `str.strip()` removes (ASCII whitespace). -/
def pySpace (c : Char) : Bool :=
  c = ' ' || c = '\t' || c = '\n' || c = '\x0d' || c = '\x0b' || c = '\x0c'

/-- Model of Python `str.strip()` on the character list of a string. -/
def pyStripList (cs : List Char) : List Char :=
  ((cs.dropWhile pySpace).reverse.dropWhile pySpace).reverse

/-- Model of Python `str.strip()`. -/
def strStrip (s : String) : String := ⟨pyStripList s.data⟩

/-- Model of Python `str.split(sep)` for a one-character separator: splitting
the empty string yields `[[]]`, and separators delimit (possibly empty)
fields, exactly as in Python. -/
def splitOnChar (sep : Char) : List Char → List (List Char)
  | [] => [[]]
  | c :: cs =>
    if c = sep then [] :: splitOnChar sep cs
    else
      match splitOnChar sep cs with
      | [] => [[c]]
      | g :: gs => (c :: g) :: gs

/-- Model of Python `str.replace(a, b)` for one-character `a` and `b`. -/
def replaceChar (a b : Char) (cs : List Char) : List Char :=
  cs.map fun c => if c = a then b else c

/-! ### Python `int(...)` and `float(...)` on decimal strings -/

def digitVal (c : Char) : Nat := c.toNat - 48

def isDigits (cs : List Char) : Bool := !cs.isEmpty && cs.all Char.isDigit

def natOfDigits (cs : List Char) : Nat :=
  cs.foldl (fun n c => 10 * n + digitVal c) 0

/-- Optionally signed run of ASCII digits, after stripping. -/
def pyIntCore : List Char → Option ℤ
  | '-' :: cs => if isDigits cs then some (-(natOfDigits cs : ℤ)) else none
  | '+' :: cs => if isDigits cs then some ((natOfDigits cs : ℤ)) else none
  | cs => if isDigits cs then some ((natOfDigits cs : ℤ)) else none

/-- Model of Python `int(s)` for a string `s`: `none` models the raised
`ValueError` (caught by `idnum` below). -/
def pyInt (cs : List Char) : Option ℤ := pyIntCore (pyStripList cs)

/-- Unsigned decimal literal: `"12"`, `"12.5"`, `"12."`, `".5"`. -/
def pyFloatCore (cs : List Char) : Option ℚ :=
  match splitOnChar '.' cs with
  | [whole] => if isDigits whole then some ((natOfDigits whole : ℚ)) else none
  | [whole, frac] =>
    if (whole.all Char.isDigit && frac.all Char.isDigit)
        && (!whole.isEmpty || !frac.isEmpty) then
      some ((natOfDigits whole : ℚ) + (natOfDigits frac : ℚ) / (10 : ℚ) ^ frac.length)
    else none
  | _ => none

def pyFloatSigned : List Char → Option ℚ
  | '-' :: cs => (pyFloatCore cs).map Neg.neg
  | '+' :: cs => pyFloatCore cs
  | cs => pyFloatCore cs

/-- Model of Python `float(s)`: `none` models the raised `ValueError`. -/
def pyFloat (cs : List Char) : Option ℚ := pyFloatSigned (pyStripList cs)

/-- An uncaught Python exception (`ValueError` from unpacking or number
conversion is the only kind the modelled code can raise). -/
inductive PyErr where
  | valueError
deriving DecidableEq, Repr

/-! ### Data model: JSON records of the two bus-line endpoints -/

/-- One entry of a `busstops` array; the source indexes `s["name"]` and
`s["location"]` directly, so both fields are modelled as present. -/
structure BusStop where
  name : String
  location : String
deriving DecidableEq, Repr

/-- One entry of a `buslines` array.  Fields read with `dict.get` in the
source are `Option`-valued (`none` models both a missing key and JSON
`null`); `busstops` defaults to `[]` as in `L.get("busstops", [])`. -/
structure Busline where
  id : Option String := none
  name : Option String := none
  type : Option String := none
  company : Option String := none
  start_stop : Option String := none
  end_stop : Option String := none
  polyline : Option String := none
  busstops : List BusStop := []
deriving DecidableEq, Repr

/-- A decoded JSON response of either endpoint: `status` and `info` are read
with `dict.get`; `buslines` defaults to the empty list. -/
structure Resp where
  status : Option String := none
  info : Option String := none
  buslines : List Busline := []
deriving DecidableEq, Repr

/-- The HTTP layer: `linename city keyword` and `lineid city id` give the
decoded responses of the two endpoints (`api_linename` / `api_lineid`). -/
structure Env where
  linename : String → String → Resp
  lineid : String → Option String → Resp

/-! ### Selection: pick the candidate with the smallest numeric id -/

/-- Source `idnum`: `int(s)`, with any conversion failure mapped to the
sentinel `10 ** 18` (non-numeric ids lose). -/
def idnum (s : String) : ℤ :=
  match pyInt s.data with
  | some n => n
  | none => 10 ^ 18

/-- The sort key of a candidate, `idnum(b.get("id", ""))`. -/
def busKey (b : Busline) : ℤ := idnum (b.id.getD "")

/-- The iteration of Python `min(cands, key=...)` over the remaining
candidates: the running best is replaced only on a strictly smaller key, so
on ties the earlier element is kept. -/
def pickFold (cur : Busline) : List Busline → Busline
  | [] => cur
  | b :: rest => pickFold (if busKey b < busKey cur then b else cur) rest

/-- Source `pick_best_busline`: `None` on an empty list, otherwise
`min(cands, key=lambda b: idnum(b.get("id", "")))`. -/
def pick_best_busline (cands : List Busline) : Option Busline :=
  match cands with
  | [] => none
  | c :: rest => some (pickFold c rest)

/-! ### Output base name -/

/-- Source `base_name`: strip, normalize full-width parentheses, and drop a
single trailing route suffix character. -/
def base_name (kw : String) : String :=
  let s := replaceChar '）' ')' (replaceChar '（' '(' (pyStripList kw.data))
  ⟨if s.getLast? = some '路' then s.dropLast else s⟩

/-- Second definition of the base-name derivation, written from the spec's
words — trim surrounding whitespace, replace full-width parenthesis characters
with ASCII parentheses, strip one trailing route suffix if present — to be
compared with the source-derived `base_name`. -/
def base_name_spec (kw : String) : String :=
  let t0 := pyStripList kw.data
  let t1 := replaceChar '（' '(' t0
  let t2 := replaceChar '）' ')' t1
  if t2.getLast? = some '路' then ⟨t2.dropLast⟩ else ⟨t2⟩

/-- `route_<base>.geojson` -/
def routeFile (base : String) : String := "route_" ++ base ++ ".geojson"

/-- `stop_<base>.geojson` -/
def stopsFile (base : String) : String := "stop_" ++ base ++ ".geojson"

/-! ### GCJ-02 → WGS-84 -/

/-- Source `_out_of_china`. -/
def out_of_china (lon lat : ℝ) : Prop :=
  ¬(72.004 ≤ lon ∧ lon ≤ 137.8347 ∧ 0.8293 ≤ lat ∧ lat ≤ 55.8271)

noncomputable instance (lon lat : ℝ) : Decidable (out_of_china lon lat) := by
  unfold out_of_china; infer_instance

/-- Source `_tlat` (`abs(x) ** 0.5` is `Real.sqrt |x|`). -/
noncomputable def tlat (x y : ℝ) : ℝ :=
  -100.0 + 2.0 * x + 3.0 * y + 0.2 * y * y + 0.1 * x * y + 0.2 * Real.sqrt |x|
    + (20.0 * Real.sin (6.0 * x * Real.pi) + 20.0 * Real.sin (2.0 * x * Real.pi)) * 2.0 / 3.0
    + (20.0 * Real.sin (y * Real.pi) + 40.0 * Real.sin (y / 3.0 * Real.pi)) * 2.0 / 3.0
    + (160.0 * Real.sin (y / 12.0 * Real.pi) + 320 * Real.sin (y * Real.pi / 30.0)) * 2.0 / 3.0

/-- Source `_tlon`. -/
noncomputable def tlon (x y : ℝ) : ℝ :=
  300.0 + x + 2.0 * y + 0.1 * x * x + 0.1 * x * y + 0.1 * Real.sqrt |x|
    + (20.0 * Real.sin (6.0 * x * Real.pi) + 20.0 * Real.sin (x * Real.pi)) * 2.0 / 3.0
    + (40.0 * Real.sin (x / 3.0 * Real.pi) + 150.0 * Real.sin (x / 12.0 * Real.pi)
        + 300.0 * Real.sin (x / 30.0 * Real.pi)) * 2.0 / 3.0

/-- Ellipsoid semi-major axis `a` of the source. -/
noncomputable def aGCJ : ℝ := 6378245.0

/-- Eccentricity-squared constant `ee` of the source. -/
noncomputable def eeGCJ : ℝ := 0.00669342162296594323

/-- Source `radlat = lat / 180.0 * math.pi`. -/
noncomputable def radlatOf (lat : ℝ) : ℝ := lat / 180.0 * Real.pi

/-- Source `magic = 1 - ee * sin(radlat) ** 2` (written as two statements). -/
noncomputable def magicOf (lat : ℝ) : ℝ :=
  1 - eeGCJ * Real.sin (radlatOf lat) * Real.sin (radlatOf lat)

/-- Source `gcj2wgs`: identity outside the bounding envelope, otherwise the
empirical correction offsets are scaled and subtracted. -/
noncomputable def gcj2wgs (lon lat : ℝ) : ℝ × ℝ :=
  if out_of_china lon lat then (lon, lat)
  else
    (lon - (tlon (lon - 105.0) (lat - 35.0) * 180.0) /
        (aGCJ / Real.cos (radlatOf lat) * Real.sqrt (magicOf lat) * Real.pi),
     lat - (tlat (lon - 105.0) (lat - 35.0) * 180.0) /
        ((aGCJ * (1 - eeGCJ)) / (magicOf lat * Real.sqrt (magicOf lat)) * Real.pi))

/-! ### Polyline and stop-location parsing -/

/-- Model of `x, y = s.split(",")` followed by `float(x), float(y)`:
anything but exactly two convertible fields raises `ValueError`. -/
def parsePair (cs : List Char) : Except PyErr (ℚ × ℚ) :=
  match splitOnChar ',' cs with
  | [xs, ys] =>
    match pyFloat xs, pyFloat ys with
    | some x, some y => .ok (x, y)
    | _, _ => .error .valueError
  | _ => .error .valueError

/-- The loop body of `parse_polyline` over the `";"`-separated segments:
empty (after stripping) segments are skipped, every other segment must parse
as a coordinate pair, and pairs are accumulated in input order. -/
def parseSegs : List (List Char) → Except PyErr (List (ℚ × ℚ))
  | [] => .ok []
  | seg :: rest =>
    if (pyStripList seg).isEmpty then parseSegs rest
    else
      match parsePair (pyStripList seg), parseSegs rest with
      | .ok p, .ok ps => .ok (p :: ps)
      | .error e, _ => .error e
      | _, .error e => .error e

/-- Source `parse_polyline`. -/
def parse_polyline (poly : String) : Except PyErr (List (ℚ × ℚ)) :=
  parseSegs (splitOnChar ';' poly.data)

/-- The non-empty stripped segments of a polyline string, i.e. the segments
that contribute one coordinate pair each. -/
def cleanSegs (poly : String) : List (List Char) :=
  ((splitOnChar ';' poly.data).map pyStripList).filter fun s => !s.isEmpty

/-- Source `coords_wgs = [gcj2wgs(x, y) for x, y in coords_gcj]` (the parsed
rationals are read as reals). -/
noncomputable def coordsWgs (pts : List (ℚ × ℚ)) : List (ℝ × ℝ) :=
  pts.map fun p => gcj2wgs (p.1 : ℝ) (p.2 : ℝ)

/-! ### Features, files, run state -/

structure RouteProps where
  route_id : Option String
  name : Option String
  type : Option String
  company : Option String
  origin : Option String
  destination : Option String

structure StopProps where
  route_id : Option String
  route_name : Option String
  stop_name : String

/-- A GeoJSON feature: either the route line or one stop point. -/
inductive Feature where
  | line (coords : List (ℝ × ℝ)) (props : RouteProps)
  | point (lon lat : ℝ) (props : StopProps)

/-- Source `to_fc`. -/
structure FeatureCollection where
  features : List Feature

/-- The content of a file on disk: either a feature collection as written by
the script, or arbitrary other bytes on which `json.loads` / `.get` fails. -/
inductive FileContent where
  | geo (fc : FeatureCollection)
  | raw (s : String)

/-- One `print` line of the source, abstracted to its constructor and data. -/
inductive LogEntry where
  | skipExists (base : String)
  | warnLoadFailed
  | querying (kw : String)
  | linenameFailed (info : Option String)
  | noCandidate
  | picked (id name company : Option String)
  | lineidFailed (info : Option String)
  | wrote (base : String)

/-- The mutable state of `run`: output directory contents, the two preview
accumulation lists, and the log. -/
structure RunState where
  files : List (String × FileContent)
  routeFeats : List Feature
  stopFeats : List Feature
  log : List LogEntry

def initState : RunState := ⟨[], [], [], []⟩

/-- Association-list lookup; a newly written file shadows an older entry, so
`lookupFile` always sees the latest write. -/
def lookupFile (n : String) : List (String × FileContent) → Option FileContent
  | [] => none
  | (m, c) :: rest => if m = n then some c else lookupFile n rest

def routeProps (L : Busline) : RouteProps :=
  ⟨L.id, L.name, L.type, L.company, L.start_stop, L.end_stop⟩

/-- Source `feature_point(wx, wy, {...})` for one stop, where `(wx, wy)` is
the transformed parsed location `q`. -/
noncomputable def stopFeature (L : Busline) (s : BusStop) (q : ℚ × ℚ) : Feature :=
  .point (gcj2wgs (q.1 : ℝ) (q.2 : ℝ)).1 (gcj2wgs (q.1 : ℝ) (q.2 : ℝ)).2
    ⟨L.id, L.name, s.name⟩

/-- The stop loop of `run`: parse each stop's location string, transform it,
and build one point feature; the first parse failure raises. -/
noncomputable def buildStops (L : Busline) : List BusStop → Except PyErr (List Feature)
  | [] => .ok []
  | s :: rest =>
    match parsePair s.location.data, buildStops L rest with
    | .ok q, .ok fs => .ok (stopFeature L s q :: fs)
    | .error e, _ => .error e
    | _, .error e => .error e

/-! ### The per-keyword body of `run` and the keyword loop

The loop body of `run` (lines 143-218 of the source), with the branches in
source order: skip blank keywords; if both outputs exist and overwrite was
not requested, load them for the preview (logging a load failure) and move
on; otherwise query, select, query the detail, parse, transform, build, and
write.  `Except.error` is an uncaught exception escaping the loop body;
nothing in the body catches one. -/
noncomputable def processKw (env : Env) (city : String) (overwrite : Bool)
    (st : RunState) (kw0 : String) : Except PyErr RunState :=
  if (strStrip kw0).isEmpty then .ok st
  else if !overwrite
      && (lookupFile (routeFile (base_name (strStrip kw0))) st.files).isSome
      && (lookupFile (stopsFile (base_name (strStrip kw0))) st.files).isSome then
    match lookupFile (routeFile (base_name (strStrip kw0))) st.files,
        lookupFile (stopsFile (base_name (strStrip kw0))) st.files with
    | some (.geo rfc), some (.geo sfc) =>
      .ok { st with
        routeFeats := st.routeFeats ++ rfc.features,
        stopFeats := st.stopFeats ++ sfc.features,
        log := st.log ++ [.skipExists (base_name (strStrip kw0))] }
    | _, _ =>
      .ok { st with
        log := st.log ++ [.skipExists (base_name (strStrip kw0)), .warnLoadFailed] }
  else if (env.linename city (strStrip kw0)).status = some "1" then
    match pick_best_busline (env.linename city (strStrip kw0)).buslines with
    | some best =>
      if (env.lineid city best.id).status = some "1" then
        match (env.lineid city best.id).buslines with
        | L :: _ltail =>
          match parse_polyline (L.polyline.getD "") with
          | .ok coords_gcj =>
            match buildStops L L.busstops with
            | .ok stop_feats =>
              .ok { files :=
                      (stopsFile (base_name (strStrip kw0)), .geo ⟨stop_feats⟩)
                      :: (routeFile (base_name (strStrip kw0)),
                          .geo ⟨[Feature.line (coordsWgs coords_gcj) (routeProps L)]⟩)
                      :: st.files,
                    routeFeats := st.routeFeats
                      ++ [Feature.line (coordsWgs coords_gcj) (routeProps L)],
                    stopFeats := st.stopFeats ++ stop_feats,
                    log := st.log ++ [.querying (strStrip kw0),
                      .picked best.id best.name best.company,
                      .wrote (base_name (strStrip kw0))] }
            | .error e => .error e
          | .error e => .error e
        | [] =>
          .ok { st with log := st.log ++ [.querying (strStrip kw0),
            .picked best.id best.name best.company,
            .lineidFailed (env.lineid city best.id).info] }
      else
        .ok { st with log := st.log ++ [.querying (strStrip kw0),
          .picked best.id best.name best.company,
          .lineidFailed (env.lineid city best.id).info] }
    | none => .ok { st with log := st.log ++ [.querying (strStrip kw0), .noCandidate] }
  else
    .ok { st with log := st.log ++ [.querying (strStrip kw0),
      .linenameFailed (env.linename city (strStrip kw0)).info] }

/-- The keyword loop of `run`: the body has no exception handler, so an
`Except.error` escaping `processKw` ends the whole loop. -/
noncomputable def runKeywords (env : Env) (city : String) (overwrite : Bool) :
    List String → RunState → Except PyErr RunState
  | [], st => .ok st
  | kw :: rest, st =>
    match processKw env city overwrite st kw with
    | .ok st' => runKeywords env city overwrite rest st'
    | .error e => .error e

/-! ### Coordinates appearing in a file, and their provenance -/

def featureCoords : Feature → List (ℝ × ℝ)
  | .line cs _ => cs
  | .point x y _ => [(x, y)]

def contentCoords : FileContent → List (ℝ × ℝ)
  | .geo fc => (fc.features.map featureCoords).flatten
  | .raw _ => []

/-- `q` is a provider-frame coordinate parsed from the detail record `L`:
either a point of its parsed polyline or a parsed stop location. -/
def providerPoint (L : Busline) (q : ℚ × ℚ) : Prop :=
  (∃ pts, parse_polyline (L.polyline.getD "") = .ok pts ∧ q ∈ pts) ∨
  (∃ s ∈ L.busstops, parsePair s.location.data = .ok q)

deriving instance DecidableEq for Except

/-! ### Concrete fixtures used to evaluate the theorems on closed inputs -/

/-- A detail record whose polyline parses (to no points) and that has no
stops, so its keyword is processed to completion. -/
def lineGoodB : Busline := { id := some "2", polyline := some "" }

/-- A detail record whose polyline segment `"1,2,3"` has three fields, on
which `x, y = s.split(",")` raises `ValueError`. -/
def lineBadA : Busline := { id := some "1", polyline := some "1,2,3" }

/-- Environment where keyword `"a"` leads to the malformed detail record and
every other keyword to the well-formed one. -/
def envC1 : Env where
  linename := fun _ kw =>
    { status := some "1",
      buslines := [if kw = "a" then { id := some "1" } else { id := some "2" }] }
  lineid := fun _ lid =>
    { status := some "1",
      buslines := [if lid = some "1" then lineBadA else lineGoodB] }

/-- The state produced by processing keyword `"b"` alone under `envC1`. -/
def stC1b : RunState :=
  { files := [(stopsFile "b", .geo ⟨[]⟩),
      (routeFile "b", .geo ⟨[Feature.line [] (routeProps lineGoodB)]⟩)],
    routeFeats := [Feature.line [] (routeProps lineGoodB)],
    stopFeats := [],
    log := [.querying "b", .picked (some "2") none none, .wrote "b"] }

/-- Environment whose search succeeds with one candidate but whose detail
lookup fails with status "0". -/
def envC1d : Env where
  linename := fun _ _ => { status := some "1", buslines := [{ id := some "5" }] }
  lineid := fun _ _ => { status := some "0", info := some "INVALID_PARAMS" }

def busNonNum : Busline := { id := some "zzz" }

def busBigNum : Busline := { id := some "1000000000000000001" }

def bus7 : Busline := { id := some "7" }

def bus07 : Busline := { id := some "07" }

/-- A detail record with one polyline point and one stop. -/
def lineW4 : Busline :=
  { id := some "9", polyline := some "120,28", busstops := [⟨"S", "121,29"⟩] }

/-- Environment whose search always yields one candidate and whose detail
lookup always yields `lineW4`. -/
def envC4 : Env where
  linename := fun _ _ => { status := some "1", buslines := [{ id := some "9" }] }
  lineid := fun _ _ => { status := some "1", buslines := [lineW4] }

/-- The state produced by processing keyword `"w4"` under `envC4`. -/
noncomputable def stC4 : RunState :=
  { files := [(stopsFile "w4", .geo ⟨[stopFeature lineW4 ⟨"S", "121,29"⟩ (121, 29)]⟩),
      (routeFile "w4", .geo ⟨[Feature.line (coordsWgs [(120, 28)]) (routeProps lineW4)]⟩)],
    routeFeats := [Feature.line (coordsWgs [(120, 28)]) (routeProps lineW4)],
    stopFeats := [stopFeature lineW4 ⟨"S", "121,29"⟩ (121, 29)],
    log := [.querying "w4", .picked (some "9") none none, .wrote "w4"] }

/-- The route-file content written for keyword `"w4"` under `envC4`. -/
noncomputable def cC4 : FileContent :=
  .geo ⟨[Feature.line (coordsWgs [(120, 28)]) (routeProps lineW4)]⟩

/-- A state in which both output files of keyword `"w5"` already exist, the
stop file with content on which the preview load fails. -/
def stC5 : RunState :=
  { files := [(routeFile "w5", .geo ⟨[]⟩), (stopsFile "w5", .raw "junk")],
    routeFeats := [], stopFeats := [], log := [] }

def envC5a : Env where
  linename := fun _ _ => { status := some "1", buslines := [lineW4] }
  lineid := fun _ _ => { status := some "1", buslines := [lineW4] }

def envC5b : Env where
  linename := fun _ _ => {}
  lineid := fun _ _ => {}

/-- Environment whose search always fails with status `"0"`. -/
def envC7 : Env where
  linename := fun _ _ => { status := some "0", info := some "DAILY_QUERY_OVER_LIMIT" }
  lineid := fun _ _ => {}

/-! ### Selector lemmas -/

/-- Invariant of the `min` iteration: either the running best survives and is
no worse than every scanned candidate, or the result sits in the scanned list
with a strictly smaller key than the running best, strictly smaller keys than
everything before it, and keys no larger than everything after it. -/
theorem pickFold_spec (xs : List Busline) (cur : Busline) :
    (pickFold cur xs = cur ∧ ∀ b ∈ xs, busKey cur ≤ busKey b) ∨
    (∃ l1 l2, xs = l1 ++ pickFold cur xs :: l2 ∧
      busKey (pickFold cur xs) < busKey cur ∧
      (∀ b ∈ l1, busKey (pickFold cur xs) < busKey b) ∧
      (∀ b ∈ l2, busKey (pickFold cur xs) ≤ busKey b)) := by
  induction xs generalizing cur with
  | nil => exact Or.inl ⟨rfl, by intro b hb; cases hb⟩
  | cons x rest ih =>
    by_cases hx : busKey x < busKey cur
    · have hred : pickFold cur (x :: rest) = pickFold x rest := by
        simp [pickFold, hx]
      rcases ih x with ⟨heq, hall⟩ | ⟨l1, l2, hdec, hlt, hl1, hl2⟩
      · refine Or.inr ⟨[], rest, ?_, ?_, ?_, ?_⟩
        · rw [hred, heq]; rfl
        · rw [hred, heq]; exact hx
        · intro b hb; cases hb
        · intro b hb; rw [hred, heq]; exact hall b hb
      · refine Or.inr ⟨x :: l1, l2, ?_, ?_, ?_, ?_⟩
        · rw [hred]
          conv_lhs => rw [hdec]
          rfl
        · rw [hred]; exact lt_trans hlt hx
        · intro b hb; rw [hred]; rcases List.mem_cons.mp hb with rfl | hb
          · exact hlt
          · exact hl1 b hb
        · intro b hb; rw [hred]; exact hl2 b hb
    · have hred : pickFold cur (x :: rest) = pickFold cur rest := by
        simp [pickFold, hx]
      have hcx : busKey cur ≤ busKey x := le_of_not_lt hx
      rcases ih cur with ⟨heq, hall⟩ | ⟨l1, l2, hdec, hlt, hl1, hl2⟩
      · refine Or.inl ⟨by rw [hred, heq], ?_⟩
        intro b hb; rcases List.mem_cons.mp hb with rfl | hb
        · exact hcx
        · exact hall b hb
      · refine Or.inr ⟨x :: l1, l2, ?_, ?_, ?_, ?_⟩
        · rw [hred]
          conv_lhs => rw [hdec]
          rfl
        · rw [hred]; exact hlt
        · intro b hb; rw [hred]; rcases List.mem_cons.mp hb with rfl | hb
          · exact lt_of_lt_of_le hlt hcx
          · exact hl1 b hb
        · intro b hb; rw [hred]; exact hl2 b hb

/-- The selected candidate is the first one attaining the minimal key. -/
theorem pick_best_spec (cands : List Busline) (c : Busline)
    (h : pick_best_busline cands = some c) :
    ∃ l1 l2, cands = l1 ++ c :: l2 ∧ (∀ b ∈ l1, busKey c < busKey b) ∧
      (∀ b ∈ l2, busKey c ≤ busKey b) := by
  match cands with
  | [] => exact absurd h (by simp [pick_best_busline])
  | c0 :: rest =>
    have hc : pickFold c0 rest = c := by simpa [pick_best_busline] using h
    rcases pickFold_spec rest c0 with ⟨heq, hall⟩ | ⟨l1, l2, hdec, hlt, hl1, hl2⟩
    · refine ⟨[], rest, ?_, ?_, ?_⟩
      · rw [← hc, heq]; rfl
      · intro b hb; cases hb
      · intro b hb; rw [← hc, heq]; exact hall b hb
    · refine ⟨c0 :: l1, l2, ?_, ?_, ?_⟩
      · rw [← hc]
        conv_lhs => rw [hdec]
        rfl
      · intro b hb; rw [← hc]; rcases List.mem_cons.mp hb with rfl | hb
        · exact hlt
        · exact hl1 b hb
      · intro b hb; rw [← hc]; exact hl2 b hb

/-! ### Claims about the selector -/

/-- C10: whenever the selector returns a candidate, that candidate is the
first one in input order attaining the minimal integer-parsed key (every
earlier candidate has a strictly larger key, every later one a
greater-or-equal key) — in particular, when several candidates tie on the
smallest key, including the all-non-numeric case where every key is the
sentinel, the first of them is returned; and a missing identifier field is
keyed exactly like a non-numeric identifier (both carry the key of the empty
string, the sentinel). -/
theorem c10_selector_first_minimal (cands : List Busline) (c : Busline)
    (h : pick_best_busline cands = some c) :
    (∃ l1 l2, cands = l1 ++ c :: l2 ∧ (∀ b ∈ l1, busKey c < busKey b) ∧
      (∀ b ∈ l2, busKey c ≤ busKey b)) ∧
    (∀ s : String, pyInt s.data = none → idnum s = idnum "") ∧
    (∀ b : Busline, b.id = none → busKey b = idnum "") := by
  refine ⟨pick_best_spec cands c h, ?_, ?_⟩
  · intro s hs; unfold idnum; rw [hs]; rfl
  · intro b hb; unfold busKey; rw [hb]; rfl

/-- Witness: on the tie `["7", "07"]` (both parse to 7) the selector returns
the first candidate. -/
theorem c10_first_minimal_witness :
    (∃ l1 l2, [bus7, bus07] = l1 ++ bus7 :: l2 ∧
      (∀ b ∈ l1, busKey bus7 < busKey b) ∧ (∀ b ∈ l2, busKey bus7 ≤ busKey b)) ∧
    (∀ s : String, pyInt s.data = none → idnum s = idnum "") ∧
    (∀ b : Busline, b.id = none → busKey b = idnum "") :=
  c10_selector_first_minimal [bus7, bus07] bus7 (by decide)

/-- C2 counterexample: with candidates `"zzz"` (non-numeric) and
`"1000000000000000001"` (numeric but above the `10 ** 18` sentinel), the
selector picks the non-numeric candidate even though a candidate with a
numeric identifier is present — refuting the claim that a non-numeric
identifier is never selected when any numeric identifier exists. -/
theorem c2_nonnumeric_selected_counterexample :
    pick_best_busline [busNonNum, busBigNum] = some busNonNum ∧
    pyInt (busBigNum.id.getD "").data = some 1000000000000000001 ∧
    pyInt (busNonNum.id.getD "").data = none :=
  ⟨by decide, by decide, by decide⟩

/-- C2 (amended): the selector returns none on the empty list; otherwise a
candidate of minimal integer-parsed key; a non-numeric identifier is never
selected when a candidate whose identifier parses to a value strictly below
the `10 ** 18` sentinel is present; and on `"1023"` versus `"88"` it selects
`"88"`. -/
theorem c2_amended_selector (cands : List Busline) (c : Busline)
    (h : pick_best_busline cands = some c) :
    c ∈ cands ∧ (∀ b ∈ cands, busKey c ≤ busKey b) ∧
    ((∃ b ∈ cands, busKey b < 10 ^ 18) → pyInt (c.id.getD "").data ≠ none) ∧
    pick_best_busline ([] : List Busline) = none ∧
    pick_best_busline [{ id := some "1023" }, { id := some "88" }] =
      some { id := some "88" } := by
  obtain ⟨l1, l2, hdec, hl1, hl2⟩ := pick_best_spec cands c h
  have hmem : c ∈ cands := by
    rw [hdec]; exact List.mem_append_right _ (List.mem_cons_self _ _)
  have hmin : ∀ b ∈ cands, busKey c ≤ busKey b := by
    intro b hb
    rw [hdec] at hb
    rcases List.mem_append.mp hb with hb | hb
    · exact le_of_lt (hl1 b hb)
    · rcases List.mem_cons.mp hb with rfl | hb
      · exact le_refl _
      · exact hl2 b hb
  refine ⟨hmem, hmin, ?_, rfl, by decide⟩
  rintro ⟨b, hb, hblt⟩ hnone
  have hkey : busKey c = 10 ^ 18 := by unfold busKey idnum; rw [hnone]
  have hle := hmin b hb
  linarith

/-- Witness: the amended selector claim evaluated on the `"1023"` / `"88"`
scenario. -/
theorem c2_selector_witness :
    ({ id := some "88" } : Busline) ∈
      [({ id := some "1023" } : Busline), { id := some "88" }] ∧
    (∀ b ∈ [({ id := some "1023" } : Busline), { id := some "88" }],
      busKey { id := some "88" } ≤ busKey b) ∧
    ((∃ b ∈ [({ id := some "1023" } : Busline), { id := some "88" }],
        busKey b < 10 ^ 18) →
      pyInt (({ id := some "88" } : Busline).id.getD "").data ≠ none) ∧
    pick_best_busline ([] : List Busline) = none ∧
    pick_best_busline [{ id := some "1023" }, { id := some "88" }] =
      some { id := some "88" } :=
  c2_amended_selector [{ id := some "1023" }, { id := some "88" }]
    { id := some "88" } (by decide)

/-! ### Claims about the coordinate transformer -/

/-- C3: for every pair outside the bounding envelope the transformer returns
exactly the input pair. -/
theorem c3_out_of_envelope_unchanged (lon lat : ℝ)
    (h : lon < 72.004 ∨ 137.8347 < lon ∨ lat < 0.8293 ∨ 55.8271 < lat) :
    gcj2wgs lon lat = (lon, lat) := by
  have hc : out_of_china lon lat := by
    rintro ⟨h1, h2, h3, h4⟩
    rcases h with h | h | h | h <;> linarith
  unfold gcj2wgs
  rw [if_pos hc]

/-- Witness: the transformer leaves the out-of-envelope point (200, 10)
unchanged. -/
theorem c3_unchanged_witness : gcj2wgs 200 10 = ((200 : ℝ), (10 : ℝ)) :=
  c3_out_of_envelope_unchanged 200 10 (Or.inr (Or.inl (by norm_num)))

/-- C9: the transformer is a total function of the input pair, and in the
correction branch — which is taken exactly when the point lies inside the
bounding envelope, so in particular the latitude lies in [0.8293, 55.8271] —
the cosine of the converted latitude is nonzero, the radicand is strictly
positive, and both scaling denominators are nonzero. -/
theorem c9_correction_branch_welldefined (lon lat : ℝ)
    (h1 : 0.8293 ≤ lat) (h2 : lat ≤ 55.8271) :
    Real.cos (radlatOf lat) ≠ 0 ∧ 0 < magicOf lat ∧ 0 < Real.sqrt (magicOf lat) ∧
    aGCJ / Real.cos (radlatOf lat) * Real.sqrt (magicOf lat) * Real.pi ≠ 0 ∧
    (aGCJ * (1 - eeGCJ)) / (magicOf lat * Real.sqrt (magicOf lat)) * Real.pi ≠ 0 ∧
    (72.004 ≤ lon → lon ≤ 137.8347 →
      gcj2wgs lon lat =
        (lon - (tlon (lon - 105.0) (lat - 35.0) * 180.0) /
            (aGCJ / Real.cos (radlatOf lat) * Real.sqrt (magicOf lat) * Real.pi),
         lat - (tlat (lon - 105.0) (lat - 35.0) * 180.0) /
            ((aGCJ * (1 - eeGCJ)) / (magicOf lat * Real.sqrt (magicOf lat)) * Real.pi))) := by
  have hpi := Real.pi_pos
  have hlat0 : (0 : ℝ) < lat := by linarith
  have hr0 : 0 < radlatOf lat := by
    unfold radlatOf
    have hq : (0 : ℝ) < lat / 180.0 := by positivity
    exact mul_pos hq hpi
  have hrhi : radlatOf lat < Real.pi / 2 := by
    unfold radlatOf
    have hkey : lat / 180.0 * Real.pi - Real.pi / 2 = Real.pi * (lat / 180.0 - 1 / 2) := by
      ring
    have hneg : Real.pi * (lat / 180.0 - 1 / 2) < 0 :=
      mul_neg_of_pos_of_neg hpi (by linarith)
    linarith
  have hcos : 0 < Real.cos (radlatOf lat) :=
    Real.cos_pos_of_mem_Ioo ⟨by linarith, hrhi⟩
  have hsin1 : Real.sin (radlatOf lat) ≤ 1 := Real.sin_le_one _
  have hsin2 : -1 ≤ Real.sin (radlatOf lat) := Real.neg_one_le_sin _
  have hmag : 0 < magicOf lat := by
    unfold magicOf eeGCJ
    nlinarith [mul_nonneg (by linarith : (0:ℝ) ≤ 1 - Real.sin (radlatOf lat))
      (by linarith : (0:ℝ) ≤ 1 + Real.sin (radlatOf lat))]
  have hsqrt : 0 < Real.sqrt (magicOf lat) := Real.sqrt_pos.mpr hmag
  have ha : (0 : ℝ) < aGCJ := by unfold aGCJ; norm_num
  have hee : (0 : ℝ) < 1 - eeGCJ := by unfold eeGCJ; norm_num
  refine ⟨ne_of_gt hcos, hmag, hsqrt, ?_, ?_, ?_⟩
  · exact ne_of_gt (mul_pos (mul_pos (div_pos ha hcos) hsqrt) hpi)
  · exact ne_of_gt (mul_pos (div_pos (mul_pos ha hee) (mul_pos hmag hsqrt)) hpi)
  · intro hlon1 hlon2
    have hnot : ¬ out_of_china lon lat := fun hcon => hcon ⟨hlon1, hlon2, h1, h2⟩
    unfold gcj2wgs
    rw [if_neg hnot]

/-- Witness: the correction branch is well defined at the in-envelope point
(120, 30). -/
theorem c9_welldefined_witness :
    Real.cos (radlatOf 30) ≠ 0 ∧ 0 < magicOf 30 ∧ 0 < Real.sqrt (magicOf 30) ∧
    aGCJ / Real.cos (radlatOf 30) * Real.sqrt (magicOf 30) * Real.pi ≠ 0 ∧
    (aGCJ * (1 - eeGCJ)) / (magicOf 30 * Real.sqrt (magicOf 30)) * Real.pi ≠ 0 ∧
    (72.004 ≤ (120 : ℝ) → (120 : ℝ) ≤ 137.8347 →
      gcj2wgs 120 30 =
        ((120 : ℝ) - (tlon ((120 : ℝ) - 105.0) ((30 : ℝ) - 35.0) * 180.0) /
            (aGCJ / Real.cos (radlatOf 30) * Real.sqrt (magicOf 30) * Real.pi),
         (30 : ℝ) - (tlat ((120 : ℝ) - 105.0) ((30 : ℝ) - 35.0) * 180.0) /
            ((aGCJ * (1 - eeGCJ)) / (magicOf 30 * Real.sqrt (magicOf 30)) * Real.pi))) :=
  c9_correction_branch_welldefined 120 30 (by norm_num) (by norm_num)

/-! ### Claim about the output base name -/

/-- C8: the base name used in output filenames is obtained by trimming
surrounding whitespace, replacing full-width parenthesis characters with
ASCII parentheses, and stripping one trailing route suffix if present; the
keyword "24路" yields base name "24" and the output files route_24.geojson
and stop_24.geojson. -/
theorem c8_base_name_derivation :
    (∀ kw, base_name kw = base_name_spec kw) ∧
    base_name "24路" = "24" ∧
    routeFile (base_name "24路") = "route_24.geojson" ∧
    stopsFile (base_name "24路") = "stop_24.geojson" ∧
    base_name " B1路 " = "B1" ∧
    base_name "1（2）路" = "1(2)" ∧
    base_name "环线路路" = "环线路" ∧
    base_name "环线" = "环线" := by
  refine ⟨?_, by decide, by decide, by decide, by decide, by decide, by decide, by decide⟩
  intro kw
  simp only [base_name, base_name_spec]
  split <;> rfl

/-! ### Polyline parsing lemmas and claim C6 -/

/-- The segment loop pairs the non-empty stripped segments with the parsed
points, one to one and in order. -/
theorem parseSegs_forall2 (segs : List (List Char)) (pts : List (ℚ × ℚ))
    (h : parseSegs segs = .ok pts) :
    List.Forall₂ (fun s p => parsePair s = .ok p)
      ((segs.map pyStripList).filter fun s => !s.isEmpty) pts := by
  induction segs generalizing pts with
  | nil =>
    simp only [parseSegs] at h
    injection h with h2
    subst h2
    exact List.Forall₂.nil
  | cons seg rest ih =>
    simp only [parseSegs] at h
    by_cases he : (pyStripList seg).isEmpty
    · rw [if_pos he] at h
      have hf : ((seg :: rest).map pyStripList).filter (fun s => !s.isEmpty)
          = (rest.map pyStripList).filter fun s => !s.isEmpty := by
        simp [he]
      rw [hf]
      exact ih pts h
    · rw [if_neg he] at h
      cases hp : parsePair (pyStripList seg) with
      | error e => simp only [hp] at h; simp at h
      | ok p =>
        cases hr : parseSegs rest with
        | error e => simp only [hp, hr] at h; simp at h
        | ok ps =>
          simp only [hp, hr] at h
          injection h with h2
          subst h2
          have hf : ((seg :: rest).map pyStripList).filter (fun s => !s.isEmpty)
              = pyStripList seg :: ((rest.map pyStripList).filter fun s => !s.isEmpty) := by
            simp [he]
          rw [hf]
          exact List.Forall₂.cons hp (ih ps hr)

/-- C6: a successful parse of a polyline string yields exactly one coordinate
pair per well-formed segment (non-empty after stripping), in input order, and
the per-point transformation building the route feature's coordinate list
preserves both the count and the order of the points. -/
theorem c6_polyline_roundtrip (poly : String) (pts : List (ℚ × ℚ))
    (h : parse_polyline poly = .ok pts) :
    pts.length = (cleanSegs poly).length ∧
    List.Forall₂ (fun s p => parsePair s = .ok p) (cleanSegs poly) pts ∧
    (coordsWgs pts).length = pts.length ∧
    ∀ i (hi : i < pts.length),
      (coordsWgs pts)[i]? = some (gcj2wgs (pts[i].1 : ℝ) (pts[i].2 : ℝ)) := by
  have hfa : List.Forall₂ (fun s p => parsePair s = .ok p) (cleanSegs poly) pts :=
    parseSegs_forall2 (splitOnChar ';' poly.data) pts h
  refine ⟨(List.Forall₂.length_eq hfa).symm, hfa, by simp [coordsWgs], ?_⟩
  intro i hi
  simp [coordsWgs, List.getElem?_map, List.getElem?_eq_getElem hi]

/-- Witness: C6 evaluated on the two-segment polyline "120,28;121,29". -/
theorem c6_roundtrip_witness :
    ([(120, 28), (121, 29)] : List (ℚ × ℚ)).length = (cleanSegs "120,28;121,29").length ∧
    List.Forall₂ (fun s p => parsePair s = .ok p) (cleanSegs "120,28;121,29")
      ([(120, 28), (121, 29)] : List (ℚ × ℚ)) ∧
    (coordsWgs [(120, 28), (121, 29)]).length
      = ([(120, 28), (121, 29)] : List (ℚ × ℚ)).length ∧
    ∀ i (hi : i < ([(120, 28), (121, 29)] : List (ℚ × ℚ)).length),
      (coordsWgs [(120, 28), (121, 29)])[i]? =
        some (gcj2wgs ((([(120, 28), (121, 29)] : List (ℚ × ℚ))[i]).1 : ℝ)
          ((([(120, 28), (121, 29)] : List (ℚ × ℚ))[i]).2 : ℝ)) :=
  c6_polyline_roundtrip "120,28;121,29" [(120, 28), (121, 29)] (by decide)

/-! ### Claims about the keyword loop -/

/-- The loop body of a queried keyword whose search response has an
unsuccessful status: only the two log entries are appended. -/
theorem processKw_search_status_fail (env : Env) (city : String) (ov : Bool)
    (st : RunState) (kw : String)
    (hkw : (strStrip kw).isEmpty = false)
    (hq : (!ov && (lookupFile (routeFile (base_name (strStrip kw))) st.files).isSome
      && (lookupFile (stopsFile (base_name (strStrip kw))) st.files).isSome) = false)
    (hs : (env.linename city (strStrip kw)).status ≠ some "1") :
    processKw env city ov st kw =
      .ok { st with log := st.log ++ [.querying (strStrip kw),
        .linenameFailed (env.linename city (strStrip kw)).info] } := by
  simp [processKw, hkw, hq, hs]

/-- The loop body of a queried keyword whose search succeeds but yields no
candidate: only the two log entries are appended. -/
theorem processKw_no_candidate (env : Env) (city : String) (ov : Bool)
    (st : RunState) (kw : String)
    (hkw : (strStrip kw).isEmpty = false)
    (hq : (!ov && (lookupFile (routeFile (base_name (strStrip kw))) st.files).isSome
      && (lookupFile (stopsFile (base_name (strStrip kw))) st.files).isSome) = false)
    (hs : (env.linename city (strStrip kw)).status = some "1")
    (hpick : pick_best_busline (env.linename city (strStrip kw)).buslines = none) :
    processKw env city ov st kw =
      .ok { st with log := st.log ++ [.querying (strStrip kw), .noCandidate] } := by
  simp [processKw, hkw, hq, hs, hpick]

/-- The loop body of a queried keyword whose search selects a candidate but
whose detail response is unsuccessful or empty: only the three log entries
are appended. -/
theorem processKw_lineid_fail (env : Env) (city : String) (ov : Bool)
    (st : RunState) (kw : String) (best : Busline)
    (hkw : (strStrip kw).isEmpty = false)
    (hq : (!ov && (lookupFile (routeFile (base_name (strStrip kw))) st.files).isSome
      && (lookupFile (stopsFile (base_name (strStrip kw))) st.files).isSome) = false)
    (hs : (env.linename city (strStrip kw)).status = some "1")
    (hpick : pick_best_busline (env.linename city (strStrip kw)).buslines = some best)
    (hd : (env.lineid city best.id).status ≠ some "1" ∨
      (env.lineid city best.id).buslines = []) :
    processKw env city ov st kw =
      .ok { st with log := st.log ++ [.querying (strStrip kw),
        .picked best.id best.name best.company,
        .lineidFailed (env.lineid city best.id).info] } := by
  rcases hd with hd | hd
  · simp [processKw, hkw, hq, hs, hpick, hd]
  · by_cases hds : (env.lineid city best.id).status = some "1"
    · simp [processKw, hkw, hq, hs, hpick, hds, hd]
    · simp [processKw, hkw, hq, hs, hpick, hds]

/-- C1 (amended): the loop is strictly sequential, and failures split in two
kinds.  A failure reported through the API responses of a queried keyword —
an unsuccessful search status, no candidate after selection, or an
unsuccessful or empty detail response — is logged and only that keyword is
skipped: its body completes normally with the file store unchanged and the
loop continues with all remaining keywords from the updated state.  But a
keyword whose body raises an uncaught exception (for example while parsing
its polyline or a stop location) aborts the entire loop, so the remaining
keywords are not processed at all. -/
theorem c1_amended_sequencing (env : Env) (city : String) (ov : Bool)
    (st : RunState) (kw : String) (rest : List String) :
    (∀ st', processKw env city ov st kw = .ok st' →
      runKeywords env city ov (kw :: rest) st = runKeywords env city ov rest st') ∧
    (∀ e, processKw env city ov st kw = .error e →
      runKeywords env city ov (kw :: rest) st = .error e) ∧
    ((strStrip kw).isEmpty = false →
      (!ov && (lookupFile (routeFile (base_name (strStrip kw))) st.files).isSome
        && (lookupFile (stopsFile (base_name (strStrip kw))) st.files).isSome) = false →
      (((env.linename city (strStrip kw)).status ≠ some "1" ∨
          pick_best_busline (env.linename city (strStrip kw)).buslines = none) →
        ∃ entry, processKw env city ov st kw =
            .ok { st with log := st.log ++ [.querying (strStrip kw), entry] } ∧
          ({ st with log := st.log ++ [.querying (strStrip kw), entry] }
              : RunState).files = st.files ∧
          runKeywords env city ov (kw :: rest) st =
            runKeywords env city ov rest
              { st with log := st.log ++ [.querying (strStrip kw), entry] }) ∧
      (∀ best,
        pick_best_busline (env.linename city (strStrip kw)).buslines = some best →
        (env.linename city (strStrip kw)).status = some "1" →
        ((env.lineid city best.id).status ≠ some "1" ∨
          (env.lineid city best.id).buslines = []) →
        processKw env city ov st kw =
            .ok { st with log := st.log ++ [.querying (strStrip kw),
              .picked best.id best.name best.company,
              .lineidFailed (env.lineid city best.id).info] } ∧
          ({ st with log := st.log ++ [.querying (strStrip kw),
              .picked best.id best.name best.company,
              .lineidFailed (env.lineid city best.id).info] }
              : RunState).files = st.files ∧
          runKeywords env city ov (kw :: rest) st =
            runKeywords env city ov rest
              { st with log := st.log ++ [.querying (strStrip kw),
                .picked best.id best.name best.company,
                .lineidFailed (env.lineid city best.id).info] })) := by
  refine ⟨?_, ?_, ?_⟩
  · intro st' h
    simp [runKeywords, h]
  · intro e h
    simp [runKeywords, h]
  · intro hkw hq
    constructor
    · intro hfail
      by_cases hs : (env.linename city (strStrip kw)).status = some "1"
      · have hpick : pick_best_busline (env.linename city (strStrip kw)).buslines
            = none := by
          rcases hfail with hf | hf
          · exact absurd hs hf
          · exact hf
        have hbody := processKw_no_candidate env city ov st kw hkw hq hs hpick
        exact ⟨.noCandidate, hbody, rfl, by simp [runKeywords, hbody]⟩
      · have hbody := processKw_search_status_fail env city ov st kw hkw hq hs
        exact ⟨.linenameFailed (env.linename city (strStrip kw)).info, hbody, rfl,
          by simp [runKeywords, hbody]⟩
    · intro best hpick hs hd
      have hbody := processKw_lineid_fail env city ov st kw best hkw hq hs hpick hd
      exact ⟨hbody, rfl, by simp [runKeywords, hbody]⟩

/-- C1 counterexample: under `envC1` the keyword "a" reaches a detail record
whose polyline "1,2,3" raises while being parsed, and the exception aborts
the whole batch: the run over ["a", "b"] ends in the error, although the
keyword "b" on its own is processed to completion and gets its route file
written.  The error raised while processing "a" therefore destroys the
processing and outputs of "b". -/
theorem c1_keyword_error_aborts_batch :
    runKeywords envC1 "温州" false ["a", "b"] initState = .error .valueError ∧
    runKeywords envC1 "温州" false ["a"] initState = .error .valueError ∧
    runKeywords envC1 "温州" false ["b"] initState = .ok stC1b ∧
    (lookupFile (routeFile "b") stC1b.files).isSome = true :=
  ⟨by rfl, by rfl, by rfl, by rfl⟩

/-- Witness: the ok-case of the sequencing claim at a blank keyword, and the
detail-failure case under `envC1d`, where the search succeeds, candidate "5"
is picked, the detail lookup fails with status "0", and the body only logs
and lets the loop continue. -/
theorem c1_sequencing_witness :
    runKeywords envC1 "温州" false ["", "b"] initState =
      runKeywords envC1 "温州" false ["b"] initState ∧
    (processKw envC1d "温州" false initState "d" =
        .ok { initState with log := initState.log ++ [.querying (strStrip "d"),
          .picked (some "5") none none,
          .lineidFailed (envC1d.lineid "温州" (some "5")).info] } ∧
      ({ initState with log := initState.log ++ [.querying (strStrip "d"),
          .picked (some "5") none none,
          .lineidFailed (envC1d.lineid "温州" (some "5")).info] }
          : RunState).files = initState.files ∧
      runKeywords envC1d "温州" false ("d" :: []) initState =
        runKeywords envC1d "温州" false []
          { initState with log := initState.log ++ [.querying (strStrip "d"),
            .picked (some "5") none none,
            .lineidFailed (envC1d.lineid "温州" (some "5")).info] }) :=
  ⟨(c1_amended_sequencing envC1 "温州" false initState "" ["b"]).1 initState (by rfl),
    ((c1_amended_sequencing envC1d "温州" false initState "d" []).2.2 (by rfl)
        (by rfl)).2 { id := some "5" } (by decide) (by decide) (Or.inl (by decide))⟩

/-- C7: when a keyword is actually queried (non-blank, skip branch not taken)
and its search response has an unsuccessful status or yields no candidate,
the loop body completes normally having only appended log entries — the file
store is unchanged, so no output file is created for the keyword — and the
loop continues with all remaining keywords. -/
theorem c7_search_failure_skips (env : Env) (city : String) (ov : Bool)
    (st : RunState) (kw : String) (rest : List String)
    (hkw : (strStrip kw).isEmpty = false)
    (hq : (!ov && (lookupFile (routeFile (base_name (strStrip kw))) st.files).isSome
      && (lookupFile (stopsFile (base_name (strStrip kw))) st.files).isSome) = false)
    (hfail : (env.linename city (strStrip kw)).status ≠ some "1" ∨
      pick_best_busline (env.linename city (strStrip kw)).buslines = none) :
    ∃ entry, processKw env city ov st kw =
        .ok { st with log := st.log ++ [.querying (strStrip kw), entry] } ∧
      ({ st with log := st.log ++ [.querying (strStrip kw), entry] } : RunState).files
        = st.files ∧
      runKeywords env city ov (kw :: rest) st =
        runKeywords env city ov rest
          { st with log := st.log ++ [.querying (strStrip kw), entry] } := by
  by_cases hs : (env.linename city (strStrip kw)).status = some "1"
  · have hpick : pick_best_busline (env.linename city (strStrip kw)).buslines = none := by
      rcases hfail with hf | hf
      · exact absurd hs hf
      · exact hf
    have hbody := processKw_no_candidate env city ov st kw hkw hq hs hpick
    exact ⟨.noCandidate, hbody, rfl, by simp [runKeywords, hbody]⟩
  · have hbody := processKw_search_status_fail env city ov st kw hkw hq hs
    exact ⟨.linenameFailed (env.linename city (strStrip kw)).info, hbody, rfl,
      by simp [runKeywords, hbody]⟩

/-- Witness: a search failure with status "0" under `envC7` only logs and the
loop moves on. -/
theorem c7_skip_witness :
    ∃ entry, processKw envC7 "温州" true initState "w7" =
        .ok { initState with
          log := initState.log ++ [.querying (strStrip "w7"), entry] } ∧
      ({ initState with log := initState.log ++ [.querying (strStrip "w7"), entry] }
          : RunState).files = initState.files ∧
      runKeywords envC7 "温州" true ("w7" :: []) initState =
        runKeywords envC7 "温州" true []
          { initState with
            log := initState.log ++ [.querying (strStrip "w7"), entry] } :=
  c7_search_failure_skips envC7 "温州" true initState "w7" [] (by rfl) (by rfl)
    (Or.inl (by decide))

/-- C5: when overwrite is not requested and both output files of the keyword
already exist, the loop body completes normally without changing the file
store — it only reads the existing contents into the preview accumulation,
logging a load failure and continuing — and its result does not depend on the
network environment at all (no fetch is performed), so a second run over the
same keyword leaves both output files exactly as the first run wrote them. -/
theorem c5_skip_existing (env env' : Env) (city city' : String) (st : RunState)
    (kw : String)
    (hkw : (strStrip kw).isEmpty = false)
    (h1 : (lookupFile (routeFile (base_name (strStrip kw))) st.files).isSome = true)
    (h2 : (lookupFile (stopsFile (base_name (strStrip kw))) st.files).isSome = true) :
    (∃ st', processKw env city false st kw = .ok st' ∧ st'.files = st.files) ∧
    processKw env' city' false st kw = processKw env city false st kw := by
  cases hc1 : lookupFile (routeFile (base_name (strStrip kw))) st.files with
  | none => rw [hc1] at h1; exact absurd h1 (by simp)
  | some c1 =>
    cases hc2 : lookupFile (stopsFile (base_name (strStrip kw))) st.files with
    | none => rw [hc2] at h2; exact absurd h2 (by simp)
    | some c2 =>
      cases c1 with
      | geo rfc =>
        cases c2 with
        | geo sfc =>
          constructor
          · refine ⟨{ st with
                        routeFeats := st.routeFeats ++ rfc.features,
                        stopFeats := st.stopFeats ++ sfc.features,
                        log := st.log ++ [.skipExists (base_name (strStrip kw))] },
              ?_, rfl⟩
            simp [processKw, hkw, hc1, hc2]
          · simp [processKw, hkw, hc1, hc2]
        | raw s2 =>
          constructor
          · refine ⟨{ st with
                        log := st.log ++ [.skipExists (base_name (strStrip kw)),
                          .warnLoadFailed] },
              ?_, rfl⟩
            simp [processKw, hkw, hc1, hc2]
          · simp [processKw, hkw, hc1, hc2]
      | raw s1 =>
        constructor
        · refine ⟨{ st with
                      log := st.log ++ [.skipExists (base_name (strStrip kw)),
                        .warnLoadFailed] },
            ?_, rfl⟩
          cases c2 <;> simp [processKw, hkw, hc1, hc2]
        · cases c2 <;> simp [processKw, hkw, hc1, hc2]

/-- Witness: keyword "w5" whose outputs are both present in `stC5` (the stop
file with unloadable content): under two different environments the body
reads, does not write, and agrees. -/
theorem c5_skip_witness :
    (∃ st', processKw envC5a "温州" false stC5 "w5" = .ok st' ∧ st'.files = stC5.files) ∧
    processKw envC5b "温A" false stC5 "w5" = processKw envC5a "温州" false stC5 "w5" :=
  c5_skip_existing envC5a envC5b "温州" "温A" stC5 "w5" (by rfl) (by rfl) (by rfl)

/-! ### Provenance of written coordinates (claim C4) -/

/-- Every feature produced by the stop loop is a point feature built by
transforming the parsed location of one of the stops. -/
theorem buildStops_spec (L : Busline) (stops : List BusStop) (fs : List Feature)
    (h : buildStops L stops = .ok fs) :
    ∀ f ∈ fs, ∃ s ∈ stops, ∃ q, parsePair s.location.data = .ok q ∧
      f = stopFeature L s q := by
  induction stops generalizing fs with
  | nil =>
    simp only [buildStops] at h
    injection h with h2
    subst h2
    intro f hf
    cases hf
  | cons s rest ih =>
    simp only [buildStops] at h
    cases hp : parsePair s.location.data with
    | error e => simp only [hp] at h; simp at h
    | ok q =>
      cases hr : buildStops L rest with
      | error e => simp only [hp, hr] at h; simp at h
      | ok fs' =>
        simp only [hp, hr] at h
        injection h with h2
        subst h2
        intro f hf
        rcases List.mem_cons.mp hf with rfl | hf
        · exact ⟨s, List.mem_cons_self _ _, q, hp, rfl⟩
        · obtain ⟨s', hs', q', hq', rfl⟩ := ih fs' hr f hf
          exact ⟨s', List.mem_cons_of_mem _ hs', q', hq', rfl⟩

/-- C4: after a normally-completed loop body, any file visible in the store
either already had exactly that content before, or is one of the two files
written for this keyword — and then every coordinate pair it contains is the
image under the transformer of a provider-frame coordinate parsed from the
detail response of the selected candidate, so no provider-frame coordinate
is ever written. -/
theorem c4_written_coords_transformed (env : Env) (city : String) (ov : Bool)
    (st st' : RunState) (kw : String)
    (h : processKw env city ov st kw = .ok st') (n : String) (c : FileContent)
    (hn : lookupFile n st'.files = some c) :
    lookupFile n st.files = some c ∨
    ∃ best L rest,
      pick_best_busline (env.linename city (strStrip kw)).buslines = some best ∧
      (env.lineid city best.id).buslines = L :: rest ∧
      ∀ p ∈ contentCoords c, ∃ q, providerPoint L q ∧
        p = gcj2wgs (q.1 : ℝ) (q.2 : ℝ) := by
  unfold processKw at h
  by_cases hkw : (strStrip kw).isEmpty = true
  · rw [if_pos hkw] at h
    injection h with h2
    subst h2
    exact Or.inl hn
  · rw [if_neg hkw] at h
    by_cases hskip : (!ov && (lookupFile (routeFile (base_name (strStrip kw))) st.files).isSome
        && (lookupFile (stopsFile (base_name (strStrip kw))) st.files).isSome) = true
    · rw [if_pos hskip] at h
      split at h <;> (injection h with h2; subst h2; exact Or.inl hn)
    · rw [if_neg hskip] at h
      by_cases hs : (env.linename city (strStrip kw)).status = some "1"
      · rw [if_pos hs] at h
        cases hpick : pick_best_busline (env.linename city (strStrip kw)).buslines with
        | none =>
          simp only [hpick] at h
          injection h with h2
          subst h2
          exact Or.inl hn
        | some best =>
          simp only [hpick] at h
          by_cases hd : (env.lineid city best.id).status = some "1"
          · rw [if_pos hd] at h
            cases hbl : (env.lineid city best.id).buslines with
            | nil =>
              simp only [hbl] at h
              injection h with h2
              subst h2
              exact Or.inl hn
            | cons L ltail =>
              simp only [hbl] at h
              cases hpl : parse_polyline (L.polyline.getD "") with
              | error e => simp only [hpl] at h; simp at h
              | ok coords_gcj =>
                simp only [hpl] at h
                cases hbs : buildStops L L.busstops with
                | error e => simp only [hpl, hbs] at h; simp at h
                | ok stop_feats =>
                  simp only [hpl, hbs] at h
                  injection h with h2
                  subst h2
                  simp only [lookupFile] at hn
                  by_cases hn1 : stopsFile (base_name (strStrip kw)) = n
                  · rw [if_pos hn1] at hn
                    have hc : c = .geo ⟨stop_feats⟩ := by
                      injection hn with h3; exact h3.symm
                    subst hc
                    refine Or.inr ⟨best, L, ltail, rfl, hbl, ?_⟩
                    intro p hp
                    have hp' : ∃ f ∈ stop_feats, p ∈ featureCoords f := by
                      simpa [contentCoords] using hp
                    obtain ⟨f, hf, hpf⟩ := hp'
                    obtain ⟨s, hsmem, q, hq, rfl⟩ :=
                      buildStops_spec L L.busstops stop_feats hbs f hf
                    have hpq : p = ((gcj2wgs (q.1 : ℝ) (q.2 : ℝ)).1,
                        (gcj2wgs (q.1 : ℝ) (q.2 : ℝ)).2) := by
                      simpa [stopFeature, featureCoords] using hpf
                    refine ⟨q, Or.inr ⟨s, hsmem, hq⟩, ?_⟩
                    rw [hpq]
                  · rw [if_neg hn1] at hn
                    by_cases hn2 : routeFile (base_name (strStrip kw)) = n
                    · rw [if_pos hn2] at hn
                      have hc : c = .geo ⟨[Feature.line (coordsWgs coords_gcj)
                          (routeProps L)]⟩ := by
                        injection hn with h3; exact h3.symm
                      subst hc
                      refine Or.inr ⟨best, L, ltail, rfl, hbl, ?_⟩
                      intro p hp
                      have hp' : p ∈ coordsWgs coords_gcj := by
                        simpa [contentCoords, featureCoords] using hp
                      obtain ⟨q, hqmem, hqe⟩ := List.mem_map.mp hp'
                      exact ⟨q, Or.inl ⟨coords_gcj, hpl, hqmem⟩, hqe.symm⟩
                    · rw [if_neg hn2] at hn
                      exact Or.inl hn
          · rw [if_neg hd] at h
            injection h with h2
            subst h2
            exact Or.inl hn
      · rw [if_neg hs] at h
        injection h with h2
        subst h2
        exact Or.inl hn

/-- Witness: C4 applied to the concrete write of keyword "w4" under `envC4`:
the written route-file content `cC4` satisfies the provenance disjunction. -/
theorem c4_transformed_witness :
    lookupFile (routeFile "w4") initState.files = some cC4 ∨
    ∃ best L rest,
      pick_best_busline (envC4.linename "温州" (strStrip "w4")).buslines = some best ∧
      (envC4.lineid "温州" best.id).buslines = L :: rest ∧
      ∀ p ∈ contentCoords cC4, ∃ q, providerPoint L q ∧
        p = gcj2wgs (q.1 : ℝ) (q.2 : ℝ) :=
  c4_written_coords_transformed envC4 "温州" false initState stC4 "w4" (by rfl)
    (routeFile "w4") cC4 (by rfl)

end WenzhouBus
